import Mathlib

/-!
Shallow embedding of the report aggregation and classification logic of
`dashboard.py` (pv-dashboard).  Tables are lists of rows; a cell that the
code obtains through `pd.to_numeric(..., errors="coerce")` is modelled as
an `Option ℚ` (`none` plays the role of NaN: every comparison with NaN is
false in pandas, which the definitions below encode explicitly).
-/

namespace PVDashboard

/-- The five SEO-score bands, in the fixed order of the code's `labels`
list (`"Very Bad (0-49)", "Bad (50-69)", "Average (70-79)", "Good (80-89)",
"Very Good (90-100)"`). -/
inductive SeoBand
  | veryBad
  | bad
  | average
  | good
  | veryGood
deriving DecidableEq, Repr

/-- The order of the code's `labels` list. -/
def bandOrder : List SeoBand :=
  [.veryBad, .bad, .average, .good, .veryGood]

/-- `pd.cut(score, bins=[0, 49, 69, 79, 89, 100], labels=labels,
include_lowest=True)`: the value is placed in one of the intervals
`[0,49], (49,69], (69,79], (79,89], (89,100]`; values outside all bins get
the NaN category (`none`). -/
def seoCategory (q : ℚ) : Option SeoBand :=
  if 0 ≤ q ∧ q ≤ 49 then some .veryBad
  else if 49 < q ∧ q ≤ 69 then some .bad
  else if 69 < q ∧ q ≤ 79 then some .average
  else if 79 < q ∧ q ≤ 89 then some .good
  else if 89 < q ∧ q ≤ 100 then some .veryGood
  else none

example : seoCategory 49 = some .veryBad := by decide
example : seoCategory 50 = some .bad := by decide
example : seoCategory 100 = some .veryGood := by decide
example : seoCategory 150 = none := by decide

/-- One row of an aggregated SEO report table (`combined_data` in the SEO
tab).  Numeric columns that the code runs through `pd.to_numeric(...,
errors="coerce")` or compares with pandas semantics are `Option ℚ`
(`none` = NaN/absent); text columns are `Option String` (`none` = NaN).
The many further columns of the CSV (`Address`, `Content Type`, pixel
widths, ...) are only echoed verbatim in the raw-data view and play no
role in any classification, so they are not modelled. -/
structure SeoRow where
  originalUrl : String
  seoScore : Option ℚ
  title1 : Option String
  metaDescription1 : Option String
  title1Length : Option ℚ
  metaDescription1Length : Option ℚ
  statusCode : Option ℚ
  h1_1 : Option String
  h1_2 : Option String
deriving DecidableEq, Repr

/-- One row of an aggregated accessibility report table. -/
structure AccRow where
  impact : Option String
  violationId : Option String
  url : Option String
deriving DecidableEq, Repr

/-! ### SEO-score classification (dashboard.py lines 229-248) -/

/-- `combined_data.dropna(subset=["SEO Score"], inplace=True)` after the
numeric coercion: rows whose score failed to coerce are removed. -/
def dropnaSeoScore (t : List SeoRow) : List SeoRow :=
  t.filter (fun r => r.seoScore.isSome)

/-- The `SEO Category` column value of a row: `pd.cut` applied to its
(coerced) score; `none` when the score is NaN or outside every bin. -/
def rowSeoCategory (r : SeoRow) : Option SeoBand :=
  r.seoScore.bind seoCategory

/-- `combined_data["SEO Category"].value_counts().reindex(labels,
fill_value=0)`: one count per label, in the fixed label order, zero when
the band is empty; NaN categories are not counted by `value_counts`. -/
def seoCategoryCounts (t : List SeoRow) : List (SeoBand × Nat) :=
  bandOrder.map (fun b => (b, ((dropnaSeoScore t).filterMap rowSeoCategory).count b))

/-- A row whose score coerced to a numeric value inside `[0,100]`. -/
def hasInRangeScore (r : SeoRow) : Bool :=
  match r.seoScore with
  | some q => decide (0 ≤ q) && decide (q ≤ 100)
  | none => false

/-- Rows with a numeric score outside `[0,100]` (they receive the NaN
category from `pd.cut`). -/
def outOfRangeRows (t : List SeoRow) : List SeoRow :=
  t.filter (fun r => r.seoScore.isSome && !(hasInRangeScore r))

/-- The separate excluded-row count that the SEO tab reports for rows
whose score is out of range: the code computes and displays no such
count anywhere (lines 229-282 display only the five reindexed band
counts and the per-band tables), so the reported count is `none` for
every table. -/
def seoExcludedReport : List SeoRow → Option Nat :=
  fun _ => none

/-! ### Metadata presence and length classification (lines 323-355) -/

/-- `fillna("").replace("", "Missing")` on a text column: NaN and the
empty string both become the sentinel `"Missing"`; every other value is
kept as is. -/
def fillMissing (v : Option String) : String :=
  match v with
  | none => "Missing"
  | some s => if s = "" then "Missing" else s

/-- `lambda x: "Missing" if x == "Missing" else "Present"`. -/
def presenceOf (s : String) : String :=
  if s = "Missing" then "Missing" else "Present"

/-- `reindex(["Present", "Missing"], fill_value=0)` order. -/
def presenceOrder : List String := ["Present", "Missing"]

/-- `meta_title_counts`: presence counts of `Title 1`, reindexed to the
fixed `["Present", "Missing"]` order with zero fill. -/
def metaTitleCounts (t : List SeoRow) : List (String × Nat) :=
  presenceOrder.map
    (fun b => (b, (t.map (fun r => presenceOf (fillMissing r.title1))).count b))

/-- `meta_desc_counts`: same for `Meta Description 1`. -/
def metaDescCounts (t : List SeoRow) : List (String × Nat) :=
  presenceOrder.map
    (fun b => (b, (t.map (fun r => presenceOf (fillMissing r.metaDescription1))).count b))

/-- `(combined_data["Title 1 Length"] < 30) | (combined_data["Title 1 Length"] == 0)`;
a NaN length compares false on both sides. -/
def isTitleTooShort (r : SeoRow) : Bool :=
  match r.title1Length with
  | some l => decide (l < 30) || decide (l = 0)
  | none => false

/-- `combined_data["Title 1 Length"] > 60`. -/
def isTitleTooLong (r : SeoRow) : Bool :=
  match r.title1Length with
  | some l => decide (60 < l)
  | none => false

/-- `(... < 50) | (... == 0)` on `Meta Description 1 Length`. -/
def isDescTooShort (r : SeoRow) : Bool :=
  match r.metaDescription1Length with
  | some l => decide (l < 50) || decide (l = 0)
  | none => false

/-- `combined_data["Meta Description 1 Length"] > 160`. -/
def isDescTooLong (r : SeoRow) : Bool :=
  match r.metaDescription1Length with
  | some l => decide (160 < l)
  | none => false

def titleTooShort (t : List SeoRow) : List SeoRow := t.filter isTitleTooShort

def titleTooLong (t : List SeoRow) : List SeoRow := t.filter isTitleTooLong

def descTooShort (t : List SeoRow) : List SeoRow := t.filter isDescTooShort

def descTooLong (t : List SeoRow) : List SeoRow := t.filter isDescTooLong

/-! ### H1 heading classification (lines 417-435) -/

/-- `Series.between(lo, hi, inclusive="both")` under pandas semantics:
false on NaN. -/
def pdBetween (lo hi : ℚ) (v : Option ℚ) : Bool :=
  match v with
  | some q => decide (lo ≤ q) && decide (q ≤ hi)
  | none => false

/-- `combined_data[~combined_data["Status Code"].between(300, 399,
inclusive="both")]`: rows whose (coerced) status code is in `[300,399]`
are removed; NaN status codes survive the filter. -/
def nonRedirected (t : List SeoRow) : List SeoRow :=
  t.filter (fun r => !(pdBetween 300 399 r.statusCode))

/-- `H1-1` after `fillna("").astype(str)`. -/
def h1OneStr (r : SeoRow) : String := r.h1_1.getD ""

/-- `H1-2` after `fillna("").astype(str)`. -/
def h1TwoStr (r : SeoRow) : String := r.h1_2.getD ""

/-- `no_h1_pages = non_redirected_data[non_redirected_data["H1-1"] == ""]`. -/
def noH1Pages (t : List SeoRow) : List SeoRow :=
  (nonRedirected t).filter (fun r => h1OneStr r == "")

/-- `multiple_h1_pages = non_redirected_data[(H1-1 != "") & (H1-2 != "")]`. -/
def multipleH1Pages (t : List SeoRow) : List SeoRow :=
  (nonRedirected t).filter (fun r => h1OneStr r != "" && h1TwoStr r != "")

/-! ### Accessibility impact classification (lines 104-107) -/

/-- `desired_order = ["critical", "serious", "moderate", "minor"]`. -/
def desiredOrder : List String := ["critical", "serious", "moderate", "minor"]

/-- `combined_data["Impact"].value_counts().reindex(desired_order,
fill_value=0)`: one count per severity, in the fixed order, zero-filled;
`value_counts` ignores NaN impacts. -/
def impactCounts (t : List AccRow) : List (String × Nat) :=
  desiredOrder.map (fun b => (b, (t.filterMap (fun r => r.impact)).count b))

/-! ### Total pages scanned (lines 98-103 and 211-216) -/

/-- `len(preloaded_seo_data[list(preloaded_seo_data.keys())[0]]["Original Url"])`:
the length of the `Original Url` column (= the row count) of the first
file of the preloaded SEO mapping; `none` models the index error on an
empty mapping.  The mapping is a Python dict built in insertion order
from the sorted file list, modelled as an association list. -/
def totalPagesScanned (seoData : List (String × List SeoRow)) : Option Nat :=
  seoData.head?.map (fun kv => kv.2.length)

/-- The `Total Pages Scanned` figure of the Accessibility tab for a
selected month: the code's expression reads only the preloaded SEO
mapping, never the accessibility data or the month. -/
def accTabTotalPages (seoData : List (String × List SeoRow))
    (_accData : List (String × List AccRow)) (_month : List Char) : Option Nat :=
  totalPagesScanned seoData

/-- The `Total Pages Scanned` figure of the SEO tab for a selected
month: again only the first preloaded SEO file is read. -/
def seoTabTotalPages (seoData : List (String × List SeoRow))
    (_month : List Char) : Option Nat :=
  totalPagesScanned seoData

/-! ### Aggregation (lines 180-187 broken links, 209-220 SEO)

`pd.concat` of same-schema tables is a row-wise union preserving order;
it is modelled schema-independently over any row type. -/

/-- Broken-links aggregation:
`valid_files = [df for df in ... if not df.empty]` followed by
`pd.concat(valid_files)` when non-empty, else the no-data warning
(`none`). -/
def aggregateBrokenLinks {α : Type} (tables : List (List α)) : Option (List α) :=
  let valid := tables.filter (fun t => !t.isEmpty)
  if valid.isEmpty then none else some valid.flatten

/-- What the broken-links tab hands on for a month: the combined table
(or `none` = the warning), paired with the excluded-table count it
reports.  The code reports no such count anywhere in the tab (it only
shows the combined dataframe or a warning), so the second component is
`none` for every input. -/
def aggregateBrokenLinksView {α : Type} (tables : List (List α)) :
    Option (List α) × Option Nat :=
  (aggregateBrokenLinks tables, none)

/-- SEO aggregation: `valid_files = [f for f in month_files]` (no
filtering of empty tables at all) followed by `pd.concat` when the list
is non-empty. -/
def aggregateSeoTables {α : Type} (tables : List (List α)) : Option (List α) :=
  if tables.isEmpty then none else some tables.flatten

/-! ### Filename/period resolution (lines 85, 166, 204, 209)

Python strings are embedded as `List Char`; `pySplit` is Python's
`str.split` with an explicit one-character separator. -/

/-- Python `s.split(sep)` for a single-character `sep`: `"".split("_") =
[""]`, `"a_b".split("_") = ["a","b"]`, `"_".split("_") = ["", ""]`. -/
def pySplit (sep : Char) : List Char → List (List Char)
  | [] => [[]]
  | c :: cs =>
    let rest := pySplit sep cs
    if c = sep then [] :: rest
    else (c :: rest.headD []) :: rest.tail

/-- Month extraction of the accessibility tab (line 85):
`f.split("_")[2][:7]`; `none` models the Python index error when fewer
than three segments exist. -/
def resolvePeriodAccessibility (f : List Char) : Option (List Char) :=
  ((pySplit '_' f)[2]?).map (fun t => t.take 7)

/-- Month extraction of the SEO tab (line 204): the same
`f.split("_")[2][:7]` formula. -/
def resolvePeriodSeo (f : List Char) : Option (List Char) :=
  ((pySplit '_' f)[2]?).map (fun t => t.take 7)

/-- Month extraction of the broken-links tab (line 166):
`f.split("_")[3].split(".")[0][:7]`. -/
def resolvePeriodBrokenLinks (f : List Char) : Option (List Char) :=
  ((pySplit '_' f)[3]?).map (fun t => ((pySplit '.' t).headD []).take 7)

/-- The SEO tab's per-month file selection (line 209):
`[f for f in seo_files if f.split("_")[2].startswith(month)]`. -/
def seoMonthFiles (files : List (List Char)) (month : List Char) : List (List Char) :=
  files.filter (fun f =>
    match (pySplit '_' f)[2]? with
    | some t => month.isPrefixOf t
    | none => false)

/-- A 7-character `YYYY-MM` string, as the spec describes the resolver's
result: four digits, a dash, two digits. -/
def isYearMonth (s : List Char) : Bool :=
  match s with
  | [y1, y2, y3, y4, d, m1, m2] =>
    y1.isDigit && y2.isDigit && y3.isDigit && y4.isDigit &&
      d == '-' && m1.isDigit && m2.isDigit
  | _ => false

example :
    resolvePeriodSeo ("seo_report_2024-01-05.csv.gz".toList) =
      some ("2024-01".toList) := by decide

example :
    resolvePeriodBrokenLinks ("broken_links_report_2024-01-05.csv.gz".toList) =
      some ("2024-01".toList) := by decide

example :
    resolvePeriodAccessibility ("accessibility_report_x.csv.gz".toList) =
      some ("x.csv.g".toList) := by decide

/-! ### Concrete rows and tables used by witnesses and counterexamples -/

/-- A row with every cell absent. -/
def blankRow : SeoRow :=
  { originalUrl := "", seoScore := none, title1 := none,
    metaDescription1 := none, title1Length := none,
    metaDescription1Length := none, statusCode := none,
    h1_1 := none, h1_2 := none }

/-- A row carrying only a coerced SEO score. -/
def scoreRow (q : ℚ) : SeoRow := { blankRow with seoScore := some q }

/-- Scores 10, 55, 95, one out-of-range score and one coercion failure. -/
def exampleSeoTable : List SeoRow :=
  [scoreRow 10, scoreRow 55, scoreRow 95, scoreRow 150, blankRow]

/-- A redirected page (status 301) with an empty `H1-1`. -/
def redirectRow : SeoRow :=
  { blankRow with statusCode := some 301, h1_1 := some "" }

/-- A non-redirected page with empty `H1-1` and non-empty `H1-2`. -/
def noH1Row : SeoRow :=
  { blankRow with statusCode := some 200, h1_1 := some "", h1_2 := some "x" }

/-- A row whose `Title 1` cell holds the literal text `"Missing"`. -/
def missingRow : SeoRow := { blankRow with title1 := some "Missing" }

/-- The three artifact names of the spec's grouping scenario. -/
def seoExampleFiles : List (List Char) :=
  ["seo_report_2024-01-05.csv.gz".toList,
   "seo_report_2024-01-19.csv.gz".toList,
   "seo_report_2024-02-02.csv.gz".toList]

/-! ### Lemmas about the SEO-score bins -/

/-- A coerced score lies in `[0,100]` exactly when `pd.cut` gives it one
of the five bands. -/
lemma hasInRange_eq_isSome (q : ℚ) :
    (decide (0 ≤ q) && decide (q ≤ 100)) = (seoCategory q).isSome := by
  rw [← Bool.decide_and]
  unfold seoCategory
  split_ifs with h1 h2 h3 h4 h5
  · simp only [Option.isSome_some]
    exact decide_eq_true ⟨h1.1, by linarith [h1.2]⟩
  · simp only [Option.isSome_some]
    exact decide_eq_true ⟨by linarith [h2.1], by linarith [h2.2]⟩
  · simp only [Option.isSome_some]
    exact decide_eq_true ⟨by linarith [h3.1], by linarith [h3.2]⟩
  · simp only [Option.isSome_some]
    exact decide_eq_true ⟨by linarith [h4.1], by linarith [h4.2]⟩
  · simp only [Option.isSome_some]
    exact decide_eq_true ⟨by linarith [h5.1], h5.2⟩
  · simp only [Option.isSome_none]
    refine decide_eq_false ?_
    rintro ⟨ha, hb⟩
    push_neg at h1 h2 h3 h4 h5
    exact absurd (h5 (h4 (h3 (h2 (h1 ha))))) (by linarith)

lemma seoCategory_isSome_iff (q : ℚ) :
    (seoCategory q).isSome = true ↔ 0 ≤ q ∧ q ≤ 100 := by
  rw [← hasInRange_eq_isSome]
  simp only [Bool.and_eq_true, decide_eq_true_eq]

/-- Counting over all five bands of `bandOrder` accounts for every
element of a list of bands. -/
lemma count_bands_total (l : List SeoBand) :
    (bandOrder.map (fun b => l.count b)).sum = l.length := by
  induction l with
  | nil => rfl
  | cons a l ih =>
    cases a <;> simp [bandOrder, List.count_cons] <;>
      simp [bandOrder] at ih <;> omega

/-- The bands handed to `value_counts` are exactly the rows whose score
coerced to an in-range value. -/
lemma category_length (t : List SeoRow) :
    ((dropnaSeoScore t).filterMap rowSeoCategory).length
      = (t.filter hasInRangeScore).length := by
  induction t with
  | nil => rfl
  | cons r t ih =>
    cases hs : r.seoScore with
    | none =>
      have hdrop : dropnaSeoScore (r :: t) = dropnaSeoScore t := by
        simp [dropnaSeoScore, List.filter_cons, hs]
      have hir : hasInRangeScore r = false := by
        simp [hasInRangeScore, hs]
      rw [hdrop, List.filter_cons, hir]
      simpa using ih
    | some q =>
      have hdrop : dropnaSeoScore (r :: t) = r :: dropnaSeoScore t := by
        simp [dropnaSeoScore, List.filter_cons, hs]
      have hir : hasInRangeScore r = (seoCategory q).isSome := by
        simp only [hasInRangeScore, hs]
        exact hasInRange_eq_isSome q
      rw [hdrop]
      cases hc : seoCategory q with
      | none =>
        have h1 : hasInRangeScore r = false := by rw [hir, hc]; rfl
        have hrow : rowSeoCategory r = none := by
          simp [rowSeoCategory, hs, hc]
        rw [List.filterMap_cons, hrow, List.filter_cons, h1]
        simpa using ih
      | some b =>
        have h1 : hasInRangeScore r = true := by rw [hir, hc]; rfl
        have hrow : rowSeoCategory r = some b := by
          simp [rowSeoCategory, hs, hc]
        rw [List.filterMap_cons, hrow, List.filter_cons, h1]
        simpa using ih

/-- C1: every numeric score in `[0,100]` is assigned exactly one of the
five bands; a score of exactly 49 maps to Very Bad, exactly 50 to Bad,
and exactly 100 to Very Good. -/
theorem seo_score_total_classification (q : ℚ) (h0 : 0 ≤ q) (h1 : q ≤ 100) :
    (∃! b : SeoBand, seoCategory q = some b) ∧
    seoCategory 49 = some SeoBand.veryBad ∧
    seoCategory 50 = some SeoBand.bad ∧
    seoCategory 100 = some SeoBand.veryGood := by
  refine ⟨?_, by decide, by decide, by decide⟩
  have hsome : (seoCategory q).isSome = true :=
    (seoCategory_isSome_iff q).mpr ⟨h0, h1⟩
  obtain ⟨b, hb⟩ := Option.isSome_iff_exists.mp hsome
  exact ⟨b, hb, fun y hy => Option.some.inj (hy.symm.trans hb)⟩

theorem seo_score_total_classification_witness :
    (∃! b : SeoBand, seoCategory 49 = some b) ∧
    seoCategory 49 = some SeoBand.veryBad ∧
    seoCategory 50 = some SeoBand.bad ∧
    seoCategory 100 = some SeoBand.veryGood :=
  seo_score_total_classification 49 (by decide) (by decide)

/-- C2 counterexample: a table holding one row with score 150 has one
out-of-range row, yet the SEO tab reports no excluded count at all (the
row is merely left out of every band). -/
theorem seo_excluded_not_reported_counterexample :
    (outOfRangeRows [scoreRow 150]).length = 1 ∧
    rowSeoCategory (scoreRow 150) = none ∧
    seoExcludedReport [scoreRow 150]
      ≠ some ((outOfRangeRows [scoreRow 150]).length) := by
  refine ⟨by decide, by decide, ?_⟩
  intro h
  exact Option.noConfusion h

/-- C2 (amended): SEO-score bucketing is a total partition — the five
per-band counts sum to the number of rows whose score coerced to a value
inside `[0,100]`, and an out-of-range score is never clamped into a
band; the code however reports no excluded count for such rows. -/
theorem seo_bucket_partition (t : List SeoRow) :
    ((seoCategoryCounts t).map Prod.snd).sum
        = (t.filter hasInRangeScore).length ∧
    (∀ q : ℚ, q < 0 ∨ 100 < q → seoCategory q = none) ∧
    seoExcludedReport t = none := by
  refine ⟨?_, ?_, rfl⟩
  · have hmap : (seoCategoryCounts t).map Prod.snd
        = bandOrder.map
            (fun b => ((dropnaSeoScore t).filterMap rowSeoCategory).count b) := by
      simp [seoCategoryCounts, List.map_map, Function.comp]
    rw [hmap, count_bands_total, category_length]
  · intro q hq
    cases hc : seoCategory q with
    | none => rfl
    | some b =>
      exfalso
      have hin : 0 ≤ q ∧ q ≤ 100 :=
        (seoCategory_isSome_iff q).mp (by rw [hc]; rfl)
      rcases hq with hq | hq <;> linarith [hin.1, hin.2]

theorem seo_bucket_partition_witness :
    ((seoCategoryCounts exampleSeoTable).map Prod.snd).sum
        = (exampleSeoTable.filter hasInRangeScore).length ∧
    seoCategory 150 = none ∧
    (exampleSeoTable.filter hasInRangeScore).length = 3 :=
  ⟨(seo_bucket_partition exampleSeoTable).1,
   (seo_bucket_partition exampleSeoTable).2.1 150 (Or.inr (by decide)),
   by decide⟩

/-! ### Lemmas about `pySplit` and period resolution -/

lemma pySplit_eq_of_not_mem (sep : Char) (a : List Char) (h : sep ∉ a) :
    pySplit sep a = [a] := by
  induction a with
  | nil => rfl
  | cons c cs ih =>
    rw [List.mem_cons, not_or] at h
    simp only [pySplit, ih h.2]
    rw [if_neg (fun hc => h.1 hc.symm)]
    rfl

lemma pySplit_append_cons (sep : Char) (a b : List Char) (h : sep ∉ a) :
    pySplit sep (a ++ sep :: b) = a :: pySplit sep b := by
  induction a with
  | nil => simp [pySplit]
  | cons c cs ih =>
    rw [List.mem_cons, not_or] at h
    simp only [List.cons_append, pySplit, List.append_eq, ih h.2]
    rw [if_neg (fun hc => h.1 hc.symm)]
    rfl

/-- Taking seven characters of a date token that starts with a 4-digit
year, a dash and a 2-digit month gives back exactly year-dash-month. -/
lemma take_seven_date (y m rest : List Char) (hy : y.length = 4) (hm : m.length = 2) :
    (y ++ '-' :: (m ++ rest)).take 7 = y ++ '-' :: m := by
  rw [List.take_append_eq_append_take, List.take_of_length_le (by omega), hy]
  norm_num
  rw [List.take_append_eq_append_take, List.take_of_length_le (by omega), hm]
  norm_num

/-- C3 counterexample: the accessibility identifier
`accessibility_report_x.csv.gz` matches the listing filter (right
leading segments, right ending) but embeds no parseable date; resolution
does not fail — it silently returns the garbage month `"x.csv.g"`, which
is not a `YYYY-MM` string. -/
theorem resolve_period_malformed_counterexample :
    resolvePeriodAccessibility ("accessibility_report_x.csv.gz".toList)
        = some ("x.csv.g".toList) ∧
    isYearMonth ("x.csv.g".toList) = false ∧
    resolvePeriodAccessibility ("accessibility_report_x.csv.gz".toList) ≠ none := by
  refine ⟨by decide, by decide, ?_⟩
  intro h
  rw [show resolvePeriodAccessibility ("accessibility_report_x.csv.gz".toList)
      = some ("x.csv.g".toList) from by decide] at h
  exact Option.noConfusion h

/-- C3 (amended): for identifiers of either known `_`-segment layout
whose date-position token starts with a well-formed `YYYY-MM-...` date,
period resolution returns the 7-character `YYYY-MM` token; the spec's
grouping scenario holds; but a malformed identifier is not rejected with
`MalformedIdentifier` — the code blindly takes the first seven characters
of whatever token sits at the date position. -/
theorem resolve_period_layouts :
    (∀ y m rest : List Char, y.length = 4 → m.length = 2 →
        '_' ∉ y ++ '-' :: (m ++ rest) →
        resolvePeriodAccessibility
            ("accessibility".toList ++ '_' ::
              ("report".toList ++ '_' :: (y ++ '-' :: (m ++ rest))))
          = some (y ++ '-' :: m)) ∧
    (∀ y m rest : List Char, y.length = 4 → m.length = 2 →
        '_' ∉ y ++ '-' :: (m ++ rest) →
        resolvePeriodSeo
            ("seo".toList ++ '_' ::
              ("report".toList ++ '_' :: (y ++ '-' :: (m ++ rest))))
          = some (y ++ '-' :: m)) ∧
    (∀ y m rest ext : List Char, y.length = 4 → m.length = 2 →
        '_' ∉ y ++ '-' :: (m ++ rest) → '_' ∉ ext →
        '.' ∉ y ++ '-' :: (m ++ rest) →
        resolvePeriodBrokenLinks
            ("broken".toList ++ '_' ::
              ("links".toList ++ '_' ::
                ("report".toList ++ '_' ::
                  ((y ++ '-' :: (m ++ rest)) ++ '.' :: ext))))
          = some (y ++ '-' :: m)) ∧
    (seoExampleFiles.filterMap resolvePeriodSeo).dedup
        = ["2024-01".toList, "2024-02".toList] ∧
    (seoMonthFiles seoExampleFiles ("2024-01".toList)).length = 2 ∧
    (seoMonthFiles seoExampleFiles ("2024-02".toList)).length = 1 := by
  refine ⟨?_, ?_, ?_, by decide, by decide, by decide⟩
  · intro y m rest hy hm hu
    unfold resolvePeriodAccessibility
    rw [pySplit_append_cons _ _ _ (by decide),
      pySplit_append_cons _ _ _ (by decide),
      pySplit_eq_of_not_mem _ _ hu]
    simp only [List.getElem?_cons_succ, List.getElem?_cons_zero, Option.map_some']
    rw [take_seven_date y m rest hy hm]
  · intro y m rest hy hm hu
    unfold resolvePeriodSeo
    rw [pySplit_append_cons _ _ _ (by decide),
      pySplit_append_cons _ _ _ (by decide),
      pySplit_eq_of_not_mem _ _ hu]
    simp only [List.getElem?_cons_succ, List.getElem?_cons_zero, Option.map_some']
    rw [take_seven_date y m rest hy hm]
  · intro y m rest ext hy hm hu hext hdot
    have htok : '_' ∉ (y ++ '-' :: (m ++ rest)) ++ '.' :: ext := by
      intro hmem
      rcases List.mem_append.mp hmem with h | h
      · exact hu h
      · rcases List.mem_cons.mp h with h | h
        · exact absurd h (by decide)
        · exact hext h
    unfold resolvePeriodBrokenLinks
    rw [pySplit_append_cons _ _ _ (by decide),
      pySplit_append_cons _ _ _ (by decide),
      pySplit_append_cons _ _ _ (by decide),
      pySplit_eq_of_not_mem _ _ htok]
    simp only [List.getElem?_cons_succ, List.getElem?_cons_zero, Option.map_some']
    rw [pySplit_append_cons _ _ _ hdot]
    simp only [List.headD_cons]
    rw [take_seven_date y m rest hy hm]

theorem resolve_period_layouts_witness :
    resolvePeriodAccessibility
        ("accessibility".toList ++ '_' ::
          ("report".toList ++ '_' ::
            ("2024".toList ++ '-' :: ("01".toList ++ "-05.csv.gz".toList))))
      = some ("2024".toList ++ '-' :: "01".toList) :=
  resolve_period_layouts.1 "2024".toList "01".toList "-05.csv.gz".toList
    (by decide) (by decide) (by decide)

/-! ### Aggregation lemmas -/

/-- Dropping empty tables does not change the concatenated rows. -/
lemma flatten_filter_nonempty {α : Type} (tables : List (List α)) :
    (tables.filter (fun t => !t.isEmpty)).flatten = tables.flatten := by
  induction tables with
  | nil => rfl
  | cons t ts ih =>
    cases t with
    | nil => simpa [List.filter_cons] using ih
    | cons a t => simp [List.filter_cons, ih]

/-- C4 (amended): aggregating tables of total row count `R`, with empty
tables mixed in, yields exactly the `R` rows in concatenation order —
for the broken-links path (which drops empty tables first) and for the
SEO path (which does not filter at all) alike; but the number of
excluded empty tables is not reported to the caller. -/
theorem aggregate_preserves_rows {α : Type} (tables : List (List α))
    (h : ∃ t ∈ tables, t ≠ []) :
    aggregateBrokenLinks tables = some tables.flatten ∧
    aggregateSeoTables tables = some tables.flatten ∧
    tables.flatten.length = (tables.map List.length).sum ∧
    (aggregateBrokenLinksView tables).2 = none := by
  obtain ⟨t, ht, hne⟩ := h
  have hmem : t ∈ tables.filter (fun x => !x.isEmpty) :=
    List.mem_filter.mpr ⟨ht, by simp [List.isEmpty_iff, hne]⟩
  have hval : (tables.filter (fun x => !x.isEmpty)).isEmpty = false := by
    cases hq : tables.filter (fun x => !x.isEmpty) with
    | nil => rw [hq] at hmem; exact absurd hmem (List.not_mem_nil t)
    | cons a l => rfl
  refine ⟨?_, ?_, List.length_flatten tables, rfl⟩
  · unfold aggregateBrokenLinks
    simp only [hval, Bool.false_eq_true, if_false]
    rw [flatten_filter_nonempty]
  · unfold aggregateSeoTables
    cases hq : tables with
    | nil => rw [hq] at ht; exact absurd ht (List.not_mem_nil t)
    | cons a l => rfl

theorem aggregate_preserves_rows_witness :
    aggregateBrokenLinks [[(0 : Nat)], [], [1, 2]]
        = some ([[(0 : Nat)], [], [1, 2]].flatten) ∧
    aggregateSeoTables [[(0 : Nat)], [], [1, 2]]
        = some ([[(0 : Nat)], [], [1, 2]].flatten) ∧
    ([[(0 : Nat)], [], [1, 2]].flatten).length
        = ([[(0 : Nat)], [], [1, 2]].map List.length).sum ∧
    (aggregateBrokenLinksView [[(0 : Nat)], [], [1, 2]]).2 = none :=
  aggregate_preserves_rows [[(0 : Nat)], [], [1, 2]] ⟨[0], by decide⟩

/-- C4 counterexample: aggregating one non-empty and one empty table
(`k = 1`) yields the right row but the view carries no excluded-table
count equal to 1 — the code never computes one. -/
theorem aggregate_excluded_count_counterexample :
    (aggregateBrokenLinksView [[(0 : Nat)], []]).1 = some [0] ∧
    ([[(0 : Nat)], []].filter (fun t => t.isEmpty)).length = 1 ∧
    (aggregateBrokenLinksView [[(0 : Nat)], []]).2 ≠ some 1 := by
  refine ⟨by decide, by decide, ?_⟩
  intro h
  exact Option.noConfusion h

/-- C5: title-length classification with bounds 30/60 — length 0 and 29
are "too short", length 30 is neither, length 61 is "too long", and no
row satisfies both predicates. -/
theorem title_length_bounds :
    isTitleTooShort { blankRow with title1Length := some 0 } = true ∧
    isTitleTooShort { blankRow with title1Length := some 29 } = true ∧
    isTitleTooShort { blankRow with title1Length := some 30 } = false ∧
    isTitleTooLong { blankRow with title1Length := some 30 } = false ∧
    isTitleTooLong { blankRow with title1Length := some 61 } = true ∧
    ∀ r : SeoRow, ¬(isTitleTooShort r = true ∧ isTitleTooLong r = true) := by
  refine ⟨by decide, by decide, by decide, by decide, by decide, ?_⟩
  rintro r ⟨hs, hl⟩
  cases hv : r.title1Length with
  | none => simp [isTitleTooShort, hv] at hs
  | some l =>
    simp only [isTitleTooShort, hv, Bool.or_eq_true, decide_eq_true_eq] at hs
    simp only [isTitleTooLong, hv, decide_eq_true_eq] at hl
    rcases hs with hs | hs
    · linarith
    · rw [hs] at hl
      exact absurd hl (by norm_num)

theorem title_length_bounds_witness :
    isTitleTooShort { blankRow with title1Length := some 29 } = true ∧
    ¬(isTitleTooShort { blankRow with title1Length := some 29 } = true ∧
      isTitleTooLong { blankRow with title1Length := some 29 } = true) :=
  ⟨title_length_bounds.1,
   title_length_bounds.2.2.2.2.2 { blankRow with title1Length := some 29 }⟩

/-- C6: a row whose status code lies in the redirect range `[300,399]`
is excluded from both H1 buckets, whatever its heading cells hold. -/
theorem redirect_rows_excluded_from_h1 (t : List SeoRow) (r : SeoRow) (s : ℚ)
    (hs : r.statusCode = some s) (h3 : 300 ≤ s) (h4 : s ≤ 399) :
    r ∉ noH1Pages t ∧ r ∉ multipleH1Pages t := by
  have hnr : r ∉ nonRedirected t := by
    intro hmem
    obtain ⟨-, hcond⟩ := List.mem_filter.mp hmem
    rw [show pdBetween 300 399 r.statusCode = true from by
      simp only [pdBetween, hs]
      rw [decide_eq_true h3, decide_eq_true h4]
      rfl] at hcond
    exact Bool.noConfusion hcond
  constructor
  · intro hmem
    exact hnr (List.mem_filter.mp hmem).1
  · intro hmem
    exact hnr (List.mem_filter.mp hmem).1

theorem redirect_rows_excluded_from_h1_witness :
    redirectRow ∉ noH1Pages [redirectRow] ∧
    redirectRow ∉ multipleH1Pages [redirectRow] :=
  redirect_rows_excluded_from_h1 [redirectRow] redirectRow 301 rfl
    (by decide) (by decide)

/-- The first components of a reindexed count list are the index list
itself. -/
lemma map_fst_counts {β : Type} (order : List β) (c : β → Nat) :
    (order.map (fun b => (b, c b))).map Prod.fst = order := by
  induction order with
  | nil => rfl
  | cons b l ih => simp [ih]

/-- C7: every summary count list is emitted in the fixed bucket order,
with empty buckets kept at count 0, regardless of the data. -/
theorem bucket_order_fixed (a : List AccRow) (t : List SeoRow) :
    (impactCounts a).map Prod.fst = desiredOrder ∧
    (seoCategoryCounts t).map Prod.fst = bandOrder ∧
    (metaTitleCounts t).map Prod.fst = presenceOrder ∧
    (metaDescCounts t).map Prod.fst = presenceOrder ∧
    impactCounts []
        = [("critical", 0), ("serious", 0), ("moderate", 0), ("minor", 0)] ∧
    seoCategoryCounts []
        = [(.veryBad, 0), (.bad, 0), (.average, 0), (.good, 0), (.veryGood, 0)] := by
  exact ⟨map_fst_counts desiredOrder _, map_fst_counts bandOrder _,
    map_fst_counts presenceOrder _, map_fst_counts presenceOrder _,
    by decide, by decide⟩

theorem bucket_order_fixed_witness :
    (impactCounts []).map Prod.fst = desiredOrder ∧
    (seoCategoryCounts exampleSeoTable).map Prod.fst = bandOrder :=
  ⟨(bucket_order_fixed [] exampleSeoTable).1,
   (bucket_order_fixed [] exampleSeoTable).2.1⟩

/-- C8: in both tabs the displayed "Total Pages Scanned" is the length
of the `Original Url` column of the first preloaded SEO file — it does
not depend on the selected month, on the accessibility data, or on any
SEO file beyond the first. -/
theorem total_pages_first_seo_file (seoData : List (String × List SeoRow))
    (accData accData' : List (String × List AccRow)) (m m' : List Char)
    (extra : String × List SeoRow) :
    accTabTotalPages seoData accData m
        = seoData.head?.map (fun kv => kv.2.length) ∧
    seoTabTotalPages seoData m' = seoData.head?.map (fun kv => kv.2.length) ∧
    accTabTotalPages seoData accData m = accTabTotalPages seoData accData' m' ∧
    accTabTotalPages seoData accData m = seoTabTotalPages seoData m' ∧
    (seoData ≠ [] →
      seoTabTotalPages (seoData ++ [extra]) m = seoTabTotalPages seoData m) := by
  refine ⟨rfl, rfl, rfl, rfl, ?_⟩
  intro hne
  cases seoData with
  | nil => exact absurd rfl hne
  | cons kv rest => rfl

theorem total_pages_first_seo_file_witness :
    seoTabTotalPages [("seo_report_2024-01-05.csv.gz", [blankRow])] [] = some 1 ∧
    seoTabTotalPages
        ([("seo_report_2024-01-05.csv.gz", [blankRow])] ++
          [("seo_report_2024-02-02.csv.gz", [blankRow, blankRow])]) []
      = seoTabTotalPages [("seo_report_2024-01-05.csv.gz", [blankRow])] [] :=
  ⟨(total_pages_first_seo_file [("seo_report_2024-01-05.csv.gz", [blankRow])]
      [] [] [] [] ("", [])).2.1,
   (total_pages_first_seo_file [("seo_report_2024-01-05.csv.gz", [blankRow])]
      [] [] [] [] ("seo_report_2024-02-02.csv.gz", [blankRow, blankRow])).2.2.2.2
      (by intro h; exact List.noConfusion h)⟩

/-- The "Missing" count of a presence-classified text column is the
number of null-or-empty cells plus the number of cells holding the
literal text `"Missing"`. -/
lemma count_missing_col (f : SeoRow → Option String) (t : List SeoRow) :
    (t.map (fun r => presenceOf (fillMissing (f r)))).count "Missing"
      = (t.filter (fun r => decide (f r = none ∨ f r = some ""))).length
        + (t.filter (fun r => decide (f r = some "Missing"))).length := by
  induction t with
  | nil => rfl
  | cons r t ih =>
    simp only [List.map_cons, List.filter_cons]
    by_cases h1 : f r = none ∨ f r = some ""
    · have hp : presenceOf (fillMissing (f r)) = "Missing" := by
        rcases h1 with h | h <;> rw [h] <;> decide
      have h2 : ¬ f r = some "Missing" := by
        rcases h1 with h | h <;> rw [h] <;> decide
      rw [hp, if_pos (decide_eq_true h1),
        if_neg (fun hx => h2 (of_decide_eq_true hx)),
        List.count_cons_self, List.length_cons]
      omega
    · by_cases h2 : f r = some "Missing"
      · have hp : presenceOf (fillMissing (f r)) = "Missing" := by
          rw [h2]; decide
        rw [hp, if_neg (fun hx => h1 (of_decide_eq_true hx)),
          if_pos (decide_eq_true h2), List.count_cons_self, List.length_cons]
        omega
      · have hp : presenceOf (fillMissing (f r)) ≠ "Missing" := by
          cases hv : f r with
          | none => exact absurd (Or.inl hv) h1
          | some s =>
            have hs1 : ¬ s = "" := fun e => h1 (Or.inr (by rw [hv, e]))
            have hs2 : ¬ s = "Missing" := fun e => h2 (by rw [hv, e])
            simp only [fillMissing, if_neg hs1, presenceOf, if_neg hs2]
            decide
        rw [if_neg (fun hx => h1 (of_decide_eq_true hx)),
          if_neg (fun hx => h2 (of_decide_eq_true hx)),
          List.count_cons_of_ne (Ne.symm hp)]
        exact ih

/-- C9: presence classification conflates the `"Missing"` sentinel with
real content — a cell whose text is literally `"Missing"` lands in the
Missing bucket, and the Missing count of the `Title 1` (resp.
`Meta Description 1`) pie equals the number of null/empty cells plus the
number of cells reading exactly `"Missing"`. -/
theorem missing_sentinel_conflation (t : List SeoRow) :
    (∀ r : SeoRow, r.title1 = some "Missing" →
        presenceOf (fillMissing r.title1) = "Missing") ∧
    (metaTitleCounts t).lookup "Missing"
        = some
          ((t.filter (fun r => decide (r.title1 = none ∨ r.title1 = some ""))).length
            + (t.filter (fun r => decide (r.title1 = some "Missing"))).length) ∧
    (metaDescCounts t).lookup "Missing"
        = some
          ((t.filter
              (fun r => decide (r.metaDescription1 = none ∨ r.metaDescription1 = some ""))).length
            + (t.filter (fun r => decide (r.metaDescription1 = some "Missing"))).length) := by
  refine ⟨fun r h => by rw [h]; decide, ?_, ?_⟩
  · show (metaTitleCounts t).lookup "Missing" = _
    have : (metaTitleCounts t).lookup "Missing"
        = some ((t.map (fun r => presenceOf (fillMissing r.title1))).count "Missing") := by
      simp [metaTitleCounts, presenceOrder, List.lookup]
    rw [this, count_missing_col (fun r => r.title1) t]
  · have : (metaDescCounts t).lookup "Missing"
        = some
          ((t.map (fun r => presenceOf (fillMissing r.metaDescription1))).count "Missing") := by
      simp [metaDescCounts, presenceOrder, List.lookup]
    rw [this, count_missing_col (fun r => r.metaDescription1) t]

theorem missing_sentinel_conflation_witness :
    presenceOf (fillMissing missingRow.title1) = "Missing" ∧
    (metaTitleCounts [missingRow, blankRow]).lookup "Missing" = some 2 := by
  refine ⟨(missing_sentinel_conflation [missingRow]).1 missingRow rfl, ?_⟩
  rw [(missing_sentinel_conflation [missingRow, blankRow]).2.1]
  decide

/-- C10: the H1 issue buckets are disjoint — "Multiple H1s" requires
both `H1-1` and `H1-2` non-empty, a non-redirected row with empty `H1-1`
is classified "No H1" regardless of its `H1-2`, and no row lies in both
buckets. -/
theorem h1_buckets_disjoint (t : List SeoRow) (r : SeoRow) :
    (r ∈ multipleH1Pages t → h1OneStr r ≠ "" ∧ h1TwoStr r ≠ "") ∧
    (r ∈ nonRedirected t → h1OneStr r = "" → r ∈ noH1Pages t) ∧
    (r ∈ noH1Pages t → r ∉ multipleH1Pages t) := by
  refine ⟨?_, ?_, ?_⟩
  · intro hm
    obtain ⟨-, hcond⟩ := List.mem_filter.mp hm
    simp only [Bool.and_eq_true, bne_iff_ne, ne_eq] at hcond
    exact ⟨hcond.1, hcond.2⟩
  · intro hnr he
    exact List.mem_filter.mpr ⟨hnr, by simp [he]⟩
  · intro hno hmul
    obtain ⟨-, hone⟩ := List.mem_filter.mp hno
    obtain ⟨-, hcond⟩ := List.mem_filter.mp hmul
    simp only [beq_iff_eq] at hone
    simp only [Bool.and_eq_true, bne_iff_ne, ne_eq] at hcond
    exact hcond.1 hone

theorem h1_buckets_disjoint_witness :
    noH1Row ∈ noH1Pages [noH1Row] ∧ noH1Row ∉ multipleH1Pages [noH1Row] := by
  have h := h1_buckets_disjoint [noH1Row] noH1Row
  have hmem : noH1Row ∈ noH1Pages [noH1Row] := h.2.1 (by decide) rfl
  exact ⟨hmem, h.2.2 hmem⟩

end PVDashboard
